import Mathlib

/-!
Verification development for the MonoLLM provider-orchestration core
(`unified_llm/core/models.py`, `unified_llm/core/exceptions.py`,
`unified_llm/core/client.py`), shallowly embedded in Lean 4.

Conventions of the embedding:
* Python `dict`s become insertion-ordered association lists with unique keys
  (`List (String × _)`); `d[k] = v` keeps the position of an existing key and
  appends a fresh key, exactly like CPython dicts; `d.update(e)` folds that
  assignment over `e`.
* Python truthiness is spelled out where the source relies on it:
  a `str` is truthy iff non-empty, a `dict` iff non-empty, an `Optional`
  iff not `None` (and, for strings/dicts, also non-empty).
* Fallible code returns `Except`; a raised exception is the `error` case.
* Object identity of mutable dicts (needed because pydantic's `model_copy()`
  is a shallow copy) is modelled by a small heap of dicts addressed by `Nat`
  references; everything else is plain values.
* `datetime.now()` and `uuid.uuid4()` are nondeterministic inputs; they are
  passed in as explicit parameters (`now`, `request_id`).
-/

/-- Primitive Python value (leaf of a metadata map). `prat` carries
numeric (float) values such as `temperature` as exact rationals. -/
inductive Prim where
  | pstr : String → Prim
  | pint : Int → Prim
  | pbool : Bool → Prim
  | prat : Rat → Prim
  | pnull : Prim
deriving DecidableEq, Repr

/-- A metadata value: a primitive, or one nested map of primitives (enough
for the reserved `usage` payload carried on a terminal stream chunk). -/
inductive Value where
  | prim : Prim → Value
  | vdict : List (String × Prim) → Value
deriving DecidableEq, Repr

/-- A Python `dict[str, Any]` as an insertion-ordered association list. -/
abbrev Dict := List (String × Value)

/-- `d[key]` / `key in d`: first (and, by construction, only) binding. -/
def lookupD {α : Type} : List (String × α) → String → Option α
  | [], _ => none
  | (k, v) :: rest, key => if k = key then some v else lookupD rest key

/-- CPython `d[k] = v`: replace in place if the key exists, else append. -/
def dictSet {α : Type} : List (String × α) → String → α → List (String × α)
  | [], k, v => [(k, v)]
  | (k2, v2) :: rest, k, v =>
      if k2 = k then (k2, v) :: rest else (k2, v2) :: dictSet rest k v

/-- CPython `d.update(e)`: assign every binding of `e` into `d`, in order
(last write wins per key). -/
def dictUpdate {α : Type} (d e : List (String × α)) : List (String × α) :=
  e.foldl (fun acc kv => dictSet acc kv.1 kv.2) d

/-- `"".join(parts)` (Python string join with empty separator). -/
def strJoin (parts : List String) : String :=
  parts.foldl (fun r s => r ++ s) ""

/-- `models.py` line 83: the `Literal["system", "user", "assistant"]` role. -/
inductive Role where
  | system : Role
  | user : Role
  | assistant : Role
deriving DecidableEq, Repr

/-- `models.py` `ModelInfo` (a frozen pydantic model). -/
structure ModelInfo where
  name : String
  max_tokens : Int
  supports_temperature : Bool := true
  supports_streaming : Bool := true
  is_reasoning_model : Bool := false
  supports_thinking : Bool := false
deriving DecidableEq, Repr

/-- `models.py` `ProviderInfo` (a frozen pydantic model); `models` is an
insertion-ordered map of model id to `ModelInfo`. -/
structure ProviderInfo where
  name : String
  base_url : String
  uses_openai_protocol : Bool := false
  supports_streaming : Bool := true
  supports_mcp : Bool := false
  models : List (String × ModelInfo) := []
deriving DecidableEq, Repr

/-- `models.py` `RequestConfig`. `temperature` (a float in the source) is an
exact rational; `metadata` is a reference into the dict heap because the
source passes the mutable dict object around by reference. The fields
`proxy`, `timeout`, `retry`, `mcp_tools` are carried opaquely by no claim
and are omitted. -/
structure RequestConfig where
  model : String
  provider : Option String := none
  temperature : Option Rat := none
  max_tokens : Option Int := none
  stream : Bool := false
  show_thinking : Bool := false
  metadata : Option Nat := none
deriving DecidableEq, Repr

/-- `models.py` `Message`. -/
structure Message where
  role : Role
  content : String
  metadata : Option Dict := none
deriving DecidableEq, Repr

/-- `models.py` `Usage`. -/
structure Usage where
  prompt_tokens : Int
  completion_tokens : Int
  total_tokens : Int
  reasoning_tokens : Option Int := none
deriving DecidableEq, Repr

/-- `models.py` `LLMResponse`. `created_at` is an abstract timestamp. -/
structure LLMResponse where
  content : String
  provider : String
  model : String
  usage : Option Usage := none
  thinking : Option String := none
  metadata : Option Dict := none
  created_at : Nat := 0
  request_id : Option String := none
deriving DecidableEq, Repr

/-- `models.py` `StreamChunk`. -/
structure StreamChunk where
  content : String
  is_complete : Bool := false
  thinking : Option String := none
  metadata : Option Dict := none
deriving DecidableEq, Repr

/-- `models.py` `StreamingResponse.__init__`: the wrapper handed back by
`generate_stream`. `chunks` holds the not-yet-consumed remainder of the
underlying async iterator (the whole stream right after construction). -/
structure StreamingResponse where
  chunks : List StreamChunk
  provider : String
  model : String
  request_id : Option String := none
  created_at : Nat := 0
deriving DecidableEq, Repr

/-- A Python-level exception escaping the aggregation loop:
`typeError` is the `TypeError` from evaluating a membership test on `None`;
`pydanticError` is a pydantic validation failure from `Usage(**payload)`. -/
inductive PyErr where
  | typeError : PyErr
  | pydanticError : PyErr
deriving DecidableEq, Repr

/-- `exceptions.py`: the canonical framework error taxonomy (every class
derives from `UnifiedLLMError`; `unifiedError` is the generic base used for
wrapping). Only the fields the claims inspect are carried. -/
inductive Err where
  | modelNotFound (message : String) (provider : String) (model : String)
      (available_models : List String) : Err
  | configurationError (message : String) : Err
  | validationError (message : String) (field : Option String)
      (value : Option Prim) : Err
  | providerError (message : String) (provider : String)
      (model : Option String) (status_code : Option Int) : Err
  | connectionError (message : String) (provider : Option String) : Err
  | unifiedError (message : String) (provider : Option String)
      (model : Option String) : Err
deriving DecidableEq, Repr

instance {ε α : Type} [DecidableEq ε] [DecidableEq α] : DecidableEq (Except ε α) :=
  fun x y =>
    match x, y with
    | .ok a, .ok b =>
        if h : a = b then .isTrue (by rw [h])
        else .isFalse (fun hh => h (Except.ok.inj hh))
    | .error a, .error b =>
        if h : a = b then .isTrue (by rw [h])
        else .isFalse (fun hh => h (Except.error.inj hh))
    | .ok _, .error _ => .isFalse (fun hh => Except.noConfusion hh)
    | .error _, .ok _ => .isFalse (fun hh => Except.noConfusion hh)

/-- `Usage(**payload)` (models.py line 155): pydantic construction of a
`Usage` from a metadata value. A non-mapping payload is a `TypeError`
(cannot be splatted); a mapping missing a required integer field, or with a
wrongly-typed field, is a pydantic validation error. -/
def parseUsageValue : Value → Except PyErr Usage
  | .vdict d =>
      match lookupD d "prompt_tokens", lookupD d "completion_tokens",
            lookupD d "total_tokens" with
      | some (.pint p), some (.pint c), some (.pint t) =>
          match lookupD d "reasoning_tokens" with
          | none => .ok { prompt_tokens := p, completion_tokens := c,
                          total_tokens := t, reasoning_tokens := none }
          | some .pnull => .ok { prompt_tokens := p, completion_tokens := c,
                                 total_tokens := t, reasoning_tokens := none }
          | some (.pint r) => .ok { prompt_tokens := p, completion_tokens := c,
                                    total_tokens := t, reasoning_tokens := some r }
          | some _ => .error .pydanticError
      | _, _, _ => .error .pydanticError
  | .prim _ => .error .typeError

/-- The local accumulator variables of `StreamingResponse.collect`
(models.py 142-145): `content_parts`, `thinking_parts`, `final_metadata`,
`usage`, with their initial values as defaults. -/
structure AggSt where
  content_parts : List String := []
  thinking_parts : List String := []
  final_metadata : Dict := []
  usage : Option Usage := none
deriving DecidableEq, Repr

/-- One iteration of the `async for` body of `collect` (models.py 148-153)
minus the usage extraction: append the chunk's content fragment if truthy
(non-empty), append its thinking fragment if truthy (present and
non-empty), and `update` the cumulative metadata with its metadata map if
truthy (present and non-empty). -/
def accumChunk (st : AggSt) (c : StreamChunk) : AggSt :=
  { content_parts := st.content_parts ++ (if c.content = "" then [] else [c.content])
    thinking_parts := st.thinking_parts ++
      (match c.thinking with
       | some t => if t = "" then [] else [t]
       | none => [])
    final_metadata :=
      (match c.metadata with
       | some d => if d = [] then st.final_metadata
                   else dictUpdate st.final_metadata d
       | none => st.final_metadata)
    usage := st.usage }

/-- One full iteration of the `async for` body (models.py 148-155): the
accumulation above, then — only on a chunk with `is_complete` — the test
`"usage" in chunk.metadata`, which raises `TypeError` when the chunk's
metadata is `None`, and `Usage(**chunk.metadata["usage"])` when the key is
present. -/
def collectStep (st : AggSt) (c : StreamChunk) : Except PyErr AggSt :=
  let st2 := accumChunk st c
  if c.is_complete then
    match c.metadata with
    | none => .error .typeError
    | some d =>
        match lookupD d "usage" with
        | none => .ok st2
        | some v =>
            match parseUsageValue v with
            | .ok u => .ok { st2 with usage := some u }
            | .error e => .error e
  else .ok st2

/-- The `async for` loop of `collect`: run `collectStep` over the remaining
chunks of the iterator. Returns the outcome together with the chunks the
iterator did not consume (empty on success or when the raising chunk was
the last; an exception leaves the chunks after the raising one unread). -/
def collectRun : AggSt → List StreamChunk → Except PyErr AggSt × List StreamChunk
  | st, [] => (.ok st, [])
  | st, c :: cs =>
      match collectStep st c with
      | .ok st2 => collectRun st2 cs
      | .error e => (.error e, cs)

/-- `StreamingResponse.collect` (models.py 140-166). Returns the result
(an `LLMResponse`, or the escaping Python exception) together with the
post-call `StreamingResponse`, whose internal iterator has been consumed. -/
def StreamingResponse.collect (sr : StreamingResponse) :
    Except PyErr LLMResponse × StreamingResponse :=
  match collectRun {} sr.chunks with
  | (.ok st, rest) =>
      (.ok { content := strJoin st.content_parts
             provider := sr.provider
             model := sr.model
             usage := st.usage
             thinking := if st.thinking_parts = [] then none
                         else some (strJoin st.thinking_parts)
             metadata := some st.final_metadata
             created_at := sr.created_at
             request_id := sr.request_id },
       { sr with chunks := rest })
  | (.error e, rest) => (.error e, { sr with chunks := rest })

example :
    (StreamingResponse.collect
      { chunks := [{ content := "ab" }, { content := "cd" }]
        provider := "p", model := "m" }).1 =
    .ok { content := "abcd", provider := "p", model := "m",
          metadata := some [] } := by
  decide

/-- The state of a `UnifiedLLMClient` after `_load_configuration`:
`provider_info` is the static per-provider registry (insertion-ordered, as
loaded), `providers` are the ids that got a live adapter instance
(`client.py` lines 49-50; a provider without an API key is missing here). -/
structure UnifiedLLMClient where
  provider_info : List (String × ProviderInfo)
  providers : List String
deriving DecidableEq, Repr

/-- The `all_models` accumulation of `get_model_info` (client.py 181-183):
every model id of every provider, in registry order. -/
def allModelIds (reg : List (String × ProviderInfo)) : List String :=
  reg.foldl (fun acc p => acc ++ p.2.models.map (fun kv => kv.1)) []

/-- The `for provider_id, provider_info in self.provider_info.items()` scan
of `get_model_info` (client.py 176-178): first provider declaring the model
wins. -/
def scanProviders (model_id : String) :
    List (String × ProviderInfo) → Option (String × ModelInfo)
  | [] => none
  | (pid, pinfo) :: rest =>
      match lookupD pinfo.models model_id with
      | some mi => some (pid, mi)
      | none => scanProviders model_id rest

/-- `UnifiedLLMClient.get_model_info` (client.py 146-190). The hint is
tested with Python truthiness (`if provider_id:`), so an empty-string hint
behaves like no hint. -/
def UnifiedLLMClient.get_model_info (client : UnifiedLLMClient)
    (model_id : String) (provider_id : Option String) :
    Except Err (String × ModelInfo) :=
  match provider_id with
  | some pid =>
      if pid = "" then
        match scanProviders model_id client.provider_info with
        | some r => .ok r
        | none =>
            .error (.modelNotFound
              ("Model '" ++ model_id ++ "' not found in any provider")
              "" model_id (allModelIds client.provider_info))
      else
        match lookupD client.provider_info pid with
        | none =>
            .error (.modelNotFound ("Provider '" ++ pid ++ "' not found")
              pid model_id [])
        | some pinfo =>
            match lookupD pinfo.models model_id with
            | none =>
                .error (.modelNotFound
                  ("Model '" ++ model_id ++ "' not found in provider '" ++
                    pid ++ "'")
                  pid model_id (pinfo.models.map (fun kv => kv.1)))
            | some mi => .ok (pid, mi)
  | none =>
      match scanProviders model_id client.provider_info with
      | some r => .ok r
      | none =>
          .error (.modelNotFound
            ("Model '" ++ model_id ++ "' not found in any provider")
            "" model_id (allModelIds client.provider_info))

/-- `UnifiedLLMClient._validate_request_config` (client.py 192-231):
resolve, then the three capability checks, failing fast on the first
violated one. -/
def UnifiedLLMClient.validate_request_config (client : UnifiedLLMClient)
    (config : RequestConfig) : Except Err (String × String × ModelInfo) :=
  match client.get_model_info config.model config.provider with
  | .error e => .error e
  | .ok (provider_id, model_info) =>
      if ¬ client.providers.contains provider_id then
        .error (.configurationError
          ("Provider '" ++ provider_id ++
            "' is not available. Check your API key configuration."))
      else if config.temperature.isSome && ! model_info.supports_temperature then
        .error (.validationError
          ("Model '" ++ config.model ++ "' does not support temperature control")
          (some "temperature") (config.temperature.map Prim.prat))
      else if config.stream && ! model_info.supports_streaming then
        .error (.validationError
          ("Model '" ++ config.model ++ "' does not support streaming")
          (some "stream") (some (Prim.pbool config.stream)))
      else if config.show_thinking && ! model_info.supports_thinking then
        .error (.validationError
          ("Model '" ++ config.model ++ "' does not support thinking steps")
          (some "show_thinking") (some (Prim.pbool config.show_thinking)))
      else .ok (provider_id, config.model, model_info)

/-- The heap of live Python dict objects, addressed by `Nat` references —
needed because `RequestConfig.metadata` is a mutable dict shared by
reference, and pydantic's `model_copy()` copies the reference, not the
dict. -/
structure Heap where
  dicts : List Dict
deriving DecidableEq, Repr

/-- Dereference (total: out-of-range references never arise in the model). -/
def Heap.get (h : Heap) (r : Nat) : Dict :=
  h.dicts.getD r []

/-- Overwrite the dict object behind a reference. -/
def Heap.set (h : Heap) (r : Nat) (d : Dict) : Heap :=
  ⟨h.dicts.set r d⟩

/-- Allocate a fresh dict object. -/
def Heap.alloc (h : Heap) (d : Dict) : Heap × Nat :=
  (⟨h.dicts ++ [d]⟩, h.dicts.length)

/-- `config_with_id.metadata = config_with_id.metadata or {}`
(client.py 260/313): keep the existing dict object if it is truthy
(present and non-empty), otherwise bind a fresh empty dict. -/
def ensureMetadataRef (h : Heap) (m : Option Nat) : Heap × Nat :=
  match m with
  | none => h.alloc []
  | some r => if h.get r = [] then h.alloc [] else (h, r)

/-- Lines 259-261 / 312-314 of client.py: `config.model_copy()` (a shallow
copy — the record is copied, the metadata reference is shared), then the
`or {}` normalization, then `config_with_id.metadata["request_id"] =
request_id`, which writes through the reference. Returns the updated heap
and `config_with_id`. -/
def attachRequestId (h : Heap) (config : RequestConfig) (request_id : String) :
    Heap × RequestConfig :=
  let hr := ensureMetadataRef h config.metadata
  let h2 := hr.1.set hr.2
    (dictSet (hr.1.get hr.2) "request_id" (.prim (.pstr request_id)))
  (h2, { config with metadata := some hr.2 })

/-- What the `try` block of `generate` / `generate_stream` observed from
the adapter call: a value, or a raised exception that either is a
canonical framework error (`isinstance(e, UnifiedLLMError)`) or is any
other Python exception, of which only the message text matters. -/
inductive AdapterRaised where
  | canonical : Err → AdapterRaised
  | otherExc : String → AdapterRaised
deriving DecidableEq, Repr

/-- `UnifiedLLMClient.generate` (client.py 233-280), observed at the
claims' granularity. Message normalization (lines 248-249) does not affect
any modelled observable and the dispatched adapter call (either branch of
the `try`, including the `collect` of the streaming branch) is abstracted
by the `attempt` parameter; `request_id` stands for the fresh
`uuid.uuid4()`. Returns the call's outcome and the post-call heap. -/
def UnifiedLLMClient.generate (client : UnifiedLLMClient) (h : Heap)
    (config : RequestConfig) (request_id : String)
    (attempt : Except AdapterRaised LLMResponse) :
    Except Err LLMResponse × Heap :=
  match client.validate_request_config config with
  | .error e => (.error e, h)
  | .ok (provider_id, model_id, _model_info) =>
      let hc := attachRequestId h config request_id
      match attempt with
      | .ok resp => (.ok resp, hc.1)
      | .error (.canonical e) => (.error e, hc.1)
      | .error (.otherExc msg) =>
          (.error (.unifiedError
            ("Unexpected error during generation: " ++ msg)
            (some provider_id) (some model_id)), hc.1)

/-- Modelled from the spec: the Transport Adapter implementations under
`unified_llm/providers/` are not among the sources (only their import
sites are). Per the spec's Transport Adapter contract and the
Orchestrator's `generate_stream` description, the adapter returns its
event sequence wrapped in a `StreamingResponse` (whose constructor IS in
the sources, models.py 119-133) carrying the resolved provider id, the
model id, the request id found in the resolved options' metadata, and the
construction timestamp `now`. -/
def adapterGenerateStream (events : List StreamChunk)
    (provider_id model_id : String) (config : RequestConfig) (h : Heap)
    (now : Nat) : StreamingResponse :=
  { chunks := events
    provider := provider_id
    model := model_id
    request_id :=
      match config.metadata with
      | some r =>
          match lookupD (h.get r) "request_id" with
          | some (.prim (.pstr s)) => some s
          | _ => none
      | none => none
    created_at := now }

/-- `UnifiedLLMClient.generate_stream` (client.py 282-326): force
`stream = True` on a copy, validate, attach the request id, and return the
adapter's wrapped, un-collected event sequence. `events` abstracts the
vendor's stream, `request_id` the fresh uuid, `now` the wrapper's
construction time. -/
def UnifiedLLMClient.generate_stream (client : UnifiedLLMClient) (h : Heap)
    (config : RequestConfig) (request_id : String)
    (events : List StreamChunk) (now : Nat) :
    Except Err StreamingResponse × Heap :=
  let config2 := { config with stream := true }
  match client.validate_request_config config2 with
  | .error e => (.error e, h)
  | .ok (provider_id, model_id, _model_info) =>
      let hc := attachRequestId h config2 request_id
      (.ok (adapterGenerateStream events provider_id model_id hc.2 hc.1 now),
       hc.1)

/-- `Message` (models.py 80-85) declares no `model_config`, so it keeps
pydantic's default mutable behavior — in contrast to `ModelInfo` and
`ProviderInfo`, which set `ConfigDict(frozen=True)` (models.py 11 and 24). -/
def Message.model_config_frozen : Bool := false

/-- models.py line 11: `ModelInfo` sets `ConfigDict(frozen=True)`. -/
def ModelInfo.model_config_frozen : Bool := true

/-- Pydantic attribute assignment `m.role = v`: on a model whose config is
frozen it raises a validation error; otherwise it updates the field in
place (no validation runs, since `validate_assignment` is not enabled
anywhere in the sources). -/
def Message.setattr_role (m : Message) (v : Role) : Except PyErr Message :=
  if Message.model_config_frozen then .error .pydanticError
  else .ok { m with role := v }

/-- Pydantic attribute assignment `m.content = v` (see `setattr_role`). -/
def Message.setattr_content (m : Message) (v : String) : Except PyErr Message :=
  if Message.model_config_frozen then .error .pydanticError
  else .ok { m with content := v }

/-- Pydantic attribute assignment `m.metadata = v` (see `setattr_role`). -/
def Message.setattr_metadata (m : Message) (v : Option Dict) :
    Except PyErr Message :=
  if Message.model_config_frozen then .error .pydanticError
  else .ok { m with metadata := v }

/-- Pydantic attribute assignment `mi.name = v` on the frozen `ModelInfo`. -/
def ModelInfo.setattr_name (mi : ModelInfo) (v : String) :
    Except PyErr ModelInfo :=
  if ModelInfo.model_config_frozen then .error .pydanticError
  else .ok { mi with name := v }

/-- The truthy (non-empty) content fragments of a chunk sequence, in
arrival order. -/
def contentFrags (l : List StreamChunk) : List String :=
  l.filterMap (fun c => if c.content = "" then none else some c.content)

/-- The carried (present and non-empty) thinking fragments of a chunk
sequence, in arrival order. -/
def thinkFrags (l : List StreamChunk) : List String :=
  l.filterMap (fun c =>
    match c.thinking with
    | some t => if t = "" then none else some t
    | none => none)

/-- Merge one event's metadata map (if any) into a cumulative map,
last write wins per key. -/
def mdStep (acc : Dict) (c : StreamChunk) : Dict :=
  match c.metadata with
  | some d => dictUpdate acc d
  | none => acc

/-- The usage the spec's contract attaches: the parse of the usage payload
found on the terminal event — the last event of the sequence — when there
is one. -/
def contractUsage (l : List StreamChunk) : Option Usage :=
  match l.getLast? with
  | some c =>
      if c.is_complete then
        match c.metadata with
        | some d =>
            match lookupD d "usage" with
            | some v => (parseUsageValue v).toOption
            | none => none
        | none => none
      else none
  | none => none

/-- Spec-side definition (for the refinement claim about `collect`),
written from the Stream Aggregator contract's words: concatenate all
content fragments in arrival order; concatenate all carried thinking
fragments, absent when no event carried any; merge every event's metadata
map last-write-wins; if the terminal event — the last one, per the spec's
StreamEvent shape — has a usage payload in its metadata, parse and attach
it. -/
def collectContract (sr : StreamingResponse) : LLMResponse :=
  { content := strJoin (sr.chunks.map (fun c => c.content))
    provider := sr.provider
    model := sr.model
    usage := contractUsage sr.chunks
    thinking := if thinkFrags sr.chunks = [] then none
                else some (strJoin (thinkFrags sr.chunks))
    metadata := some (sr.chunks.foldl mdStep [])
    created_at := sr.created_at
    request_id := sr.request_id }

/-- A chunk the aggregation loop processes without raising: a terminal
chunk must carry a metadata map (else the `"usage" in chunk.metadata` test
raises `TypeError`) and its usage payload, if any, must parse. -/
def stepOk (c : StreamChunk) : Bool :=
  ! c.is_complete ||
    (match c.metadata with
     | none => false
     | some d =>
         match lookupD d "usage" with
         | none => true
         | some v =>
             match parseUsageValue v with
             | .ok _ => true
             | .error _ => false)

/-- The fully-collected-already wrapper: what a second `collect` on an
exhausted `StreamingResponse` produces. -/
def emptyCollected (sr : StreamingResponse) : LLMResponse :=
  { content := ""
    provider := sr.provider
    model := sr.model
    usage := none
    thinking := none
    metadata := some []
    created_at := sr.created_at
    request_id := sr.request_id }

/-- Fixture: a model supporting temperature and streaming but not
thinking. -/
def miFull : ModelInfo :=
  { name := "Full", max_tokens := 1000 }

/-- Fixture: a model supporting neither temperature nor streaming. -/
def miLimited : ModelInfo :=
  { name := "Limited", max_tokens := 100,
    supports_temperature := false, supports_streaming := false }

/-- Fixture: a provider declaring both fixture models. -/
def exProviderInfo : ProviderInfo :=
  { name := "OpenAI", base_url := "https://api.example",
    models := [("gpt", miFull), ("o1", miLimited)] }

/-- Fixture: a client with one configured provider that also has a live
adapter. -/
def exClient : UnifiedLLMClient :=
  { provider_info := [("openai", exProviderInfo)], providers := ["openai"] }

/-- Fixture: the spec's synthetic event sequence
`[ (content "Hel"), (content "lo"), (thinking "step1"),
   (terminal, usage 5+2=7) ]` wrapped as a `StreamingResponse`. -/
def exStream : StreamingResponse :=
  { chunks :=
      [ { content := "Hel" },
        { content := "lo" },
        { content := "", thinking := some "step1" },
        { content := "", is_complete := true,
          metadata := some [("usage", .vdict
            [("prompt_tokens", .pint 5), ("completion_tokens", .pint 2),
             ("total_tokens", .pint 7)])] } ]
    provider := "p", model := "m", request_id := some "r", created_at := 3 }

/-- Fixture: a one-chunk terminal stream whose usage payload carries the
given token counts verbatim. -/
def mkUsageStream (p c t : Int) : StreamingResponse :=
  { chunks :=
      [ { content := "", is_complete := true,
          metadata := some [("usage", .vdict
            [("prompt_tokens", .pint p), ("completion_tokens", .pint c),
             ("total_tokens", .pint t)])] } ]
    provider := "p", model := "m" }

/-- Fixture: caller-side request metadata dict object `{"k": "v"}`
living in the heap at reference 0. -/
def exHeap : Heap := ⟨[[("k", .prim (.pstr "v"))]]⟩

/-- Fixture: a request for the fixture model whose metadata field
references the caller's dict object. -/
def exConfigMeta : RequestConfig :=
  { model := "gpt", metadata := some 0 }

/-- Fixture: a successful adapter response. -/
def exResponse : LLMResponse :=
  { content := "ok", provider := "openai", model := "gpt" }

/-- Fixture: a one-chunk non-terminal stream with content "a". -/
def exSimpleStream : StreamingResponse :=
  { chunks := [{ content := "a" }],
    provider := "p", model := "m", request_id := some "r", created_at := 1 }

/-- Fixture: a stream whose terminal chunk carries no metadata map
(`metadata` is `None`). -/
def exBadTerminalStream : StreamingResponse :=
  { chunks := [{ content := "done", is_complete := true }],
    provider := "p", model := "m" }

theorem accumChunk_usage (st : AggSt) (c : StreamChunk) :
    (accumChunk st c).usage = st.usage := rfl

theorem foldl_accum_usage (l : List StreamChunk) (st : AggSt) :
    (l.foldl accumChunk st).usage = st.usage := by
  induction l generalizing st with
  | nil => rfl
  | cons c t ih => simpa [accumChunk_usage] using ih (accumChunk st c)

theorem foldl_accum_content (l : List StreamChunk) (st : AggSt) :
    (l.foldl accumChunk st).content_parts
      = st.content_parts ++ contentFrags l := by
  induction l generalizing st with
  | nil => simp [contentFrags]
  | cons c t ih =>
      by_cases hc : c.content = "" <;>
        simp [List.foldl_cons, ih, contentFrags, List.filterMap_cons, hc,
          accumChunk]

theorem foldl_accum_thinking (l : List StreamChunk) (st : AggSt) :
    (l.foldl accumChunk st).thinking_parts
      = st.thinking_parts ++ thinkFrags l := by
  induction l generalizing st with
  | nil => simp [thinkFrags]
  | cons c t ih =>
      cases hth : c.thinking with
      | none =>
          simp [List.foldl_cons, ih, thinkFrags, List.filterMap_cons, hth,
            accumChunk]
      | some s =>
          by_cases hs : s = "" <;>
            simp [List.foldl_cons, ih, thinkFrags, List.filterMap_cons, hth,
              hs, accumChunk]

theorem dictUpdate_nil (d : Dict) : dictUpdate d [] = d := rfl

theorem foldl_accum_metadata (l : List StreamChunk) (st : AggSt) :
    (l.foldl accumChunk st).final_metadata
      = l.foldl mdStep st.final_metadata := by
  induction l generalizing st with
  | nil => rfl
  | cons c t ih =>
      rw [List.foldl_cons, List.foldl_cons, ih]
      cases hmd : c.metadata with
      | none => simp [accumChunk, mdStep, hmd]
      | some d =>
          by_cases hd : d = [] <;>
            simp [accumChunk, mdStep, hmd, hd, dictUpdate_nil]

theorem strJoin_contentFrags (l : List StreamChunk) :
    strJoin (contentFrags l) = strJoin (l.map (fun c => c.content)) := by
  suffices h : ∀ a : String,
      (contentFrags l).foldl (fun r s => r ++ s) a
        = (l.map (fun c => c.content)).foldl (fun r s => r ++ s) a by
    exact h ""
  induction l with
  | nil => intro a; rfl
  | cons c t ih =>
      intro a
      by_cases hc : c.content = ""
      · simp only [contentFrags, List.filterMap_cons, hc, if_pos,
          List.map_cons, List.foldl_cons]
        rw [String.append_empty]
        exact ih a
      · simp only [contentFrags, List.filterMap_cons, hc, if_neg,
          List.map_cons, List.foldl_cons, not_false_iff]
        exact ih (a ++ c.content)

theorem collectStep_nonterminal (st : AggSt) (c : StreamChunk)
    (hc : c.is_complete = false) :
    collectStep st c = .ok (accumChunk st c) := by
  simp [collectStep, hc]

theorem collectRun_nonterminal (l : List StreamChunk) (st : AggSt)
    (h : ∀ c ∈ l, c.is_complete = false) :
    collectRun st l = (.ok (l.foldl accumChunk st), []) := by
  induction l generalizing st with
  | nil => rfl
  | cons c t ih =>
      rw [List.foldl_cons]
      have hc : c.is_complete = false := h c (by simp)
      have ht : ∀ x ∈ t, x.is_complete = false := fun x hx => h x (by simp [hx])
      simp [collectRun, collectStep_nonterminal st c hc, ih _ ht]

theorem collectRun_append_ok (xs : List StreamChunk) (st st1 : AggSt)
    (h : collectRun st xs = (.ok st1, [])) (ys : List StreamChunk) :
    collectRun st (xs ++ ys) = collectRun st1 ys := by
  induction xs generalizing st with
  | nil =>
      have h1 : (Except.ok st : Except PyErr AggSt) = .ok st1 :=
        congrArg Prod.fst h
      cases Except.ok.inj h1
      rfl
  | cons c t ih =>
      rw [List.cons_append]
      simp only [collectRun] at h ⊢
      cases hs : collectStep st c with
      | ok st2 =>
          rw [hs] at h
          exact ih st2 h
      | error e =>
          rw [hs] at h
          exact absurd (congrArg Prod.fst h) (by simp)

theorem collect_result_eq (chs : List StreamChunk)
    (prov mdl : String) (rid : Option String) (cat : Nat) (stF : AggSt)
    (hrun : collectRun {} chs = (.ok stF, []))
    (hcontent : stF.content_parts = contentFrags chs)
    (hthink : stF.thinking_parts = thinkFrags chs)
    (hmeta : stF.final_metadata = chs.foldl mdStep [])
    (husage : stF.usage = contractUsage chs) :
    StreamingResponse.collect ⟨chs, prov, mdl, rid, cat⟩ =
      (.ok (collectContract ⟨chs, prov, mdl, rid, cat⟩),
       ⟨[], prov, mdl, rid, cat⟩) := by
  unfold StreamingResponse.collect
  rw [hrun]
  simp only [collectContract, hcontent, hthink, hmeta, husage,
    strJoin_contentFrags]

theorem collectRun_ok_rest_nil (l : List StreamChunk) (st st2 : AggSt)
    (r : List StreamChunk) (h : collectRun st l = (.ok st2, r)) : r = [] := by
  induction l generalizing st with
  | nil =>
      simpa [collectRun] using congrArg Prod.snd h
  | cons c t ih =>
      simp only [collectRun] at h
      cases hs : collectStep st c with
      | ok stx =>
          rw [hs] at h
          exact ih stx h
      | error e =>
          rw [hs] at h
          exact absurd (congrArg Prod.fst h) (by simp)


/-- C2: for every finite chunk sequence that is well-formed in the spec's
sense (only the last chunk may be terminal, and a terminal chunk carries a
metadata map whose usage payload, if any, parses), `collect` consumes the
whole iterator and returns exactly the Stream Aggregator contract's
response: content is the concatenation of all content fragments in arrival
order, thinking the concatenation of all carried thinking fragments
(absent when none), metadata the last-write-wins union of all chunk
metadata maps, and usage the parse of the terminal chunk's usage payload
when present. -/
theorem c2_collect_matches_contract (sr : StreamingResponse)
    (hterm : sr.chunks.dropLast.all (fun c => ! c.is_complete) = true)
    (hok : sr.chunks.all stepOk = true) :
    sr.collect = (.ok (collectContract sr), { sr with chunks := [] }) := by
  obtain ⟨chs, prov, mdl, rid, cat⟩ := sr
  rcases List.eq_nil_or_concat chs with hnil | ⟨init, b, hcat⟩
  · subst hnil
    rfl
  · subst hcat
    simp only [List.concat_eq_append] at hterm hok ⊢
    have hterm2 : ∀ c ∈ init, c.is_complete = false := by
      intro c hcmem
      have h2 : init.all (fun c => ! c.is_complete) = true := by
        simpa using hterm
      simpa using List.all_eq_true.mp h2 c hcmem
    have hokb : stepOk b = true := List.all_eq_true.mp hok b (by simp)
    have hrunInit := collectRun_nonterminal init {} hterm2
    have happ :=
      collectRun_append_ok init {} (init.foldl accumChunk {}) hrunInit [b]
    have hstF : accumChunk (init.foldl accumChunk {}) b
        = (init ++ [b]).foldl accumChunk {} := by
      rw [List.foldl_append, List.foldl_cons, List.foldl_nil]
    have hcontent : (accumChunk (init.foldl accumChunk {}) b).content_parts
        = contentFrags (init ++ [b]) := by
      rw [hstF, foldl_accum_content]
      rfl
    have hthink : (accumChunk (init.foldl accumChunk {}) b).thinking_parts
        = thinkFrags (init ++ [b]) := by
      rw [hstF, foldl_accum_thinking]
      rfl
    have hmeta : (accumChunk (init.foldl accumChunk {}) b).final_metadata
        = (init ++ [b]).foldl mdStep [] := by
      rw [hstF, foldl_accum_metadata]
    have husg0 : (accumChunk (init.foldl accumChunk {}) b).usage = none := by
      rw [hstF, foldl_accum_usage]
    cases hb : b.is_complete with
    | false =>
        exact collect_result_eq (init ++ [b]) prov mdl rid cat
          (accumChunk (init.foldl accumChunk {}) b)
          (by rw [happ]; simp [collectRun, collectStep_nonterminal _ _ hb])
          hcontent hthink hmeta
          (by rw [husg0]; simp [contractUsage, hb])
    | true =>
        unfold stepOk at hokb
        simp only [hb, Bool.not_true, Bool.false_or] at hokb
        cases hmd : b.metadata with
        | none =>
            simp only [hmd] at hokb
            exact Bool.noConfusion hokb
        | some d =>
            simp only [hmd] at hokb
            cases hlu : lookupD d "usage" with
            | none =>
                exact collect_result_eq (init ++ [b]) prov mdl rid cat
                  (accumChunk (init.foldl accumChunk {}) b)
                  (by rw [happ]; simp [collectRun, collectStep, hb, hmd, hlu])
                  hcontent hthink hmeta
                  (by rw [husg0]; simp [contractUsage, hb, hmd, hlu])
            | some v =>
                simp only [hlu] at hokb
                cases hpv : parseUsageValue v with
                | error e =>
                    simp only [hpv] at hokb
                    exact Bool.noConfusion hokb
                | ok u =>
                    exact collect_result_eq (init ++ [b]) prov mdl rid cat
                      { accumChunk (init.foldl accumChunk {}) b with
                        usage := some u }
                      (by rw [happ]
                          simp [collectRun, collectStep, hb, hmd, hlu, hpv])
                      hcontent hthink hmeta
                      (by simp [contractUsage, hb, hmd, hlu, hpv,
                            Except.toOption])

/-- Witness for C2 at the spec's synthetic sequence: both hypotheses hold,
and the collected response is content "Hello", thinking "step1", usage
5+2=7. -/
theorem c2_collect_matches_contract_witness :
    (exStream.chunks.dropLast.all (fun c => ! c.is_complete) = true)
    ∧ (exStream.chunks.all stepOk = true)
    ∧ exStream.collect =
        (.ok (collectContract exStream), { exStream with chunks := [] })
    ∧ collectContract exStream =
        { content := "Hello", provider := "p", model := "m",
          usage := some { prompt_tokens := 5, completion_tokens := 2,
                          total_tokens := 7 },
          thinking := some "step1",
          metadata := some [("usage", .vdict
            [("prompt_tokens", .pint 5), ("completion_tokens", .pint 2),
             ("total_tokens", .pint 7)])],
          created_at := 3, request_id := some "r" } :=
  ⟨by decide, by decide,
   c2_collect_matches_contract exStream (by decide) (by decide), by decide⟩

/-- C5 counterexample: collecting the same `StreamingResponse` twice does
not yield identical responses — the underlying iterator is consumed, so
the second `collect` sees nothing. -/
theorem c5_counterexample :
    ((exSimpleStream.collect.2).collect).1 ≠ exSimpleStream.collect.1 := by
  decide

/-- C5 amended: `collect` consumes the internal chunk iterator. After a
successful `collect`, a second `collect` on the same wrapper returns the
empty aggregation (content "", no thinking, empty metadata map, no usage,
same provider/model/request id/timestamp) — so collecting twice yields
identical responses only when the first response already equals that empty
aggregation. -/
theorem c5_second_collect_is_empty (sr sr2 : StreamingResponse)
    (r : LLMResponse) (h : sr.collect = (.ok r, sr2)) :
    sr2.collect = (.ok (emptyCollected sr), sr2) := by
  cases hrun : collectRun {} sr.chunks with
  | mk res rest =>
      simp only [StreamingResponse.collect, hrun] at h
      cases res with
      | ok st =>
          have hrest : rest = [] :=
            collectRun_ok_rest_nil sr.chunks {} st rest hrun
          subst hrest
          have hsr2 : sr2 = { sr with chunks := [] } :=
            (congrArg Prod.snd h).symm
          subst hsr2
          obtain ⟨chs, prov, mdl, rid, cat⟩ := sr
          rfl
      | error e =>
          exact absurd (congrArg Prod.fst h) (by simp)

/-- Witness for C5's amended statement at the one-chunk fixture stream. -/
theorem c5_second_collect_is_empty_witness :
    exSimpleStream.collect =
      (.ok { content := "a", provider := "p", model := "m",
             metadata := some [], created_at := 1, request_id := some "r" },
       { exSimpleStream with chunks := [] })
    ∧ ({ exSimpleStream with chunks := [] } : StreamingResponse).collect =
        (.ok (emptyCollected exSimpleStream),
         { exSimpleStream with chunks := [] }) :=
  ⟨by decide,
   c5_second_collect_is_empty exSimpleStream { exSimpleStream with chunks := [] }
     { content := "a", provider := "p", model := "m",
       metadata := some [], created_at := 1, request_id := some "r" }
     (by decide)⟩

/-- C6: evaluating `collect` on a stream whose terminal chunk has
`metadata = None` raises a `TypeError` (the source evaluates
`"usage" in chunk.metadata` without a `None` guard), instead of returning
an `LLMResponse` as the spec requires. -/
theorem c6_terminal_without_metadata_raises :
    exBadTerminalStream.collect =
      (.error .typeError, { exBadTerminalStream with chunks := [] }) := by
  decide

/-- C8 counterexample: a `Message` is not immutable — pydantic attribute
assignment on it succeeds (its class sets no `frozen` config) and changes
the content. -/
theorem c8_counterexample :
    (Message.mk .user "hi" none).setattr_content "bye" =
      .ok (Message.mk .user "bye" none)
    ∧ Message.mk .user "bye" none ≠ Message.mk .user "hi" none := by
  decide

/-- C8 amended: `Message` is a plain (non-frozen) pydantic model — unlike
`ModelInfo` (and `ProviderInfo`), which are frozen — so assignment to its
role, content, or metadata after construction succeeds and changes the
field, while assignment on the frozen `ModelInfo` always raises. -/
theorem c8_message_is_mutable (m : Message) :
    (∀ v, m.setattr_role v = .ok { m with role := v })
    ∧ (∀ v, m.setattr_content v = .ok { m with content := v })
    ∧ (∀ v, m.setattr_metadata v = .ok { m with metadata := v })
    ∧ (∀ (mi : ModelInfo) (v : String),
        mi.setattr_name v = .error .pydanticError) := by
  refine ⟨fun v => ?_, fun v => ?_, fun v => ?_, fun mi v => ?_⟩ <;>
    simp [Message.setattr_role, Message.setattr_content,
      Message.setattr_metadata, ModelInfo.setattr_name,
      Message.model_config_frozen, ModelInfo.model_config_frozen]

/-- C9 counterexample: `Usage` construction enforces no relation between
the token counts — the payload 1 + 1 = 5 is accepted verbatim. -/
theorem c9_counterexample :
    parseUsageValue (.vdict
      [("prompt_tokens", .pint 1), ("completion_tokens", .pint 1),
       ("total_tokens", .pint 5)]) =
      .ok { prompt_tokens := 1, completion_tokens := 1, total_tokens := 5 }
    ∧ (1 + 1 : Int) ≠ 5 := by
  decide

/-- C9 amended: `Usage` construction accepts any integer triple (it does
not enforce total = prompt + completion), and the stream aggregator never
re-derives `total_tokens`: it attaches exactly the values found in the
terminal chunk's usage payload. -/
theorem c9_usage_attached_verbatim (p c t : Int) :
    parseUsageValue (.vdict
      [("prompt_tokens", .pint p), ("completion_tokens", .pint c),
       ("total_tokens", .pint t)]) =
      .ok { prompt_tokens := p, completion_tokens := c, total_tokens := t }
    ∧ (mkUsageStream p c t).collect.1 =
        .ok { content := "", provider := "p", model := "m",
              usage := some { prompt_tokens := p, completion_tokens := c,
                              total_tokens := t },
              metadata := some [("usage", .vdict
                [("prompt_tokens", .pint p), ("completion_tokens", .pint c),
                 ("total_tokens", .pint t)])] } :=
  ⟨rfl, rfl⟩

/-- C1: `_validate_request_config` runs exactly the four checks in the
fixed order — registry resolution, live-adapter presence, temperature
capability, then streaming and thinking capability — and the first failing
check determines the single error raised (returning `Except` is fail-fast
by construction): a resolution error propagates as-is; an unavailable
provider yields `ConfigurationError`; a set temperature against a model
without `supports_temperature` yields `ValidationError` with field
"temperature"; then the same pattern for stream and show_thinking; and
when every check passes the resolved triple is returned. -/
theorem c1_validate_fail_fast (client : UnifiedLLMClient)
    (config : RequestConfig) :
    (∀ e, client.get_model_info config.model config.provider = .error e →
        client.validate_request_config config = .error e)
    ∧ (∀ pid mi,
        client.get_model_info config.model config.provider = .ok (pid, mi) →
        pid ∉ client.providers →
        client.validate_request_config config = .error (.configurationError
          ("Provider '" ++ pid ++
            "' is not available. Check your API key configuration.")))
    ∧ (∀ pid mi,
        client.get_model_info config.model config.provider = .ok (pid, mi) →
        pid ∈ client.providers →
        config.temperature.isSome = true →
        mi.supports_temperature = false →
        client.validate_request_config config = .error (.validationError
          ("Model '" ++ config.model ++ "' does not support temperature control")
          (some "temperature") (config.temperature.map Prim.prat)))
    ∧ (∀ pid mi,
        client.get_model_info config.model config.provider = .ok (pid, mi) →
        pid ∈ client.providers →
        ¬ (config.temperature.isSome = true ∧ mi.supports_temperature = false) →
        config.stream = true →
        mi.supports_streaming = false →
        client.validate_request_config config = .error (.validationError
          ("Model '" ++ config.model ++ "' does not support streaming")
          (some "stream") (some (Prim.pbool config.stream))))
    ∧ (∀ pid mi,
        client.get_model_info config.model config.provider = .ok (pid, mi) →
        pid ∈ client.providers →
        ¬ (config.temperature.isSome = true ∧ mi.supports_temperature = false) →
        ¬ (config.stream = true ∧ mi.supports_streaming = false) →
        config.show_thinking = true →
        mi.supports_thinking = false →
        client.validate_request_config config = .error (.validationError
          ("Model '" ++ config.model ++ "' does not support thinking steps")
          (some "show_thinking") (some (Prim.pbool config.show_thinking))))
    ∧ (∀ pid mi,
        client.get_model_info config.model config.provider = .ok (pid, mi) →
        pid ∈ client.providers →
        ¬ (config.temperature.isSome = true ∧ mi.supports_temperature = false) →
        ¬ (config.stream = true ∧ mi.supports_streaming = false) →
        ¬ (config.show_thinking = true ∧ mi.supports_thinking = false) →
        client.validate_request_config config = .ok (pid, config.model, mi)) := by
  refine ⟨?_, ?_, ?_, ?_, ?_, ?_⟩
  · intro e hg
    simp [UnifiedLLMClient.validate_request_config, hg]
  · intro pid mi hg hlive
    simp [UnifiedLLMClient.validate_request_config, hg, hlive]
  · intro pid mi hg hlive htemp hsup
    simp [UnifiedLLMClient.validate_request_config, hg, hlive, htemp, hsup]
  · intro pid mi hg hlive htp hstream hsup
    simp [UnifiedLLMClient.validate_request_config, hg, hlive, htp, hstream,
      hsup]
  · intro pid mi hg hlive htp hsp hthink hsup
    simp [UnifiedLLMClient.validate_request_config, hg, hlive, htp, hsp,
      hthink, hsup]
  · intro pid mi hg hlive htp hsp htk
    simp [UnifiedLLMClient.validate_request_config, hg, hlive, htp, hsp, htk]

/-- Witness for C1 at the fixture client: a set temperature against the
fixture model that does not support temperature control fails with a
`ValidationError` on field "temperature". -/
theorem c1_validate_fail_fast_witness :
    exClient.validate_request_config
        { model := "o1", temperature := some 1 } =
      .error (.validationError
        "Model 'o1' does not support temperature control"
        (some "temperature") (some (.prat 1))) :=
  (c1_validate_fail_fast exClient { model := "o1", temperature := some 1 }
    ).2.2.1 "openai" miLimited (by decide) (by decide) (by decide) (by decide)

theorem scanProviders_eq_none (model_id : String)
    (l : List (String × ProviderInfo))
    (h : ∀ q ∈ l, lookupD q.2.models model_id = none) :
    scanProviders model_id l = none := by
  induction l with
  | nil => rfl
  | cons q rest ih =>
      obtain ⟨pid, pinfo⟩ := q
      have h1 := h (pid, pinfo) (by simp)
      simp only [scanProviders, h1]
      exact ih (fun q hq => h q (by simp [hq]))

theorem scanProviders_append_skip (model_id : String)
    (pre rest : List (String × ProviderInfo))
    (h : ∀ q ∈ pre, lookupD q.2.models model_id = none) :
    scanProviders model_id (pre ++ rest) = scanProviders model_id rest := by
  induction pre with
  | nil => rfl
  | cons q t ih =>
      obtain ⟨pid, pinfo⟩ := q
      have h1 := h (pid, pinfo) (by simp)
      rw [List.cons_append]
      simp only [scanProviders, h1]
      exact ih (fun q hq => h q (by simp [hq]))

/-- C3 amended: `get_model_info` confines the search to the hinted
provider when a (truthy) hint is given and scans all providers in registry
order otherwise, returning the first declaring provider; every failure is
a `ModelNotFound`, but the attached model catalog differs by case — an
unknown hint carries an empty list, a known hint without the model carries
only that provider's model ids, and only the no-hint no-match case carries
the full catalog of known model ids. -/
theorem c3_lookup_rules (client : UnifiedLLMClient) (model_id : String) :
    (∀ pid, pid ≠ "" → lookupD client.provider_info pid = none →
        client.get_model_info model_id (some pid) =
          .error (.modelNotFound ("Provider '" ++ pid ++ "' not found")
            pid model_id []))
    ∧ (∀ pid pinfo, pid ≠ "" →
        lookupD client.provider_info pid = some pinfo →
        lookupD pinfo.models model_id = none →
        client.get_model_info model_id (some pid) =
          .error (.modelNotFound
            ("Model '" ++ model_id ++ "' not found in provider '" ++ pid ++ "'")
            pid model_id (pinfo.models.map (fun kv => kv.1))))
    ∧ (∀ pid pinfo mi, pid ≠ "" →
        lookupD client.provider_info pid = some pinfo →
        lookupD pinfo.models model_id = some mi →
        client.get_model_info model_id (some pid) = .ok (pid, mi))
    ∧ (∀ pre pid pinfo post mi,
        client.provider_info = pre ++ (pid, pinfo) :: post →
        (∀ q ∈ pre, lookupD q.2.models model_id = none) →
        lookupD pinfo.models model_id = some mi →
        client.get_model_info model_id none = .ok (pid, mi))
    ∧ ((∀ q ∈ client.provider_info, lookupD q.2.models model_id = none) →
        client.get_model_info model_id none =
          .error (.modelNotFound
            ("Model '" ++ model_id ++ "' not found in any provider")
            "" model_id (allModelIds client.provider_info))) := by
  refine ⟨?_, ?_, ?_, ?_, ?_⟩
  · intro pid hne hlu
    simp [UnifiedLLMClient.get_model_info, hne, hlu]
  · intro pid pinfo hne hlu hmi
    simp [UnifiedLLMClient.get_model_info, hne, hlu, hmi]
  · intro pid pinfo mi hne hlu hmi
    simp [UnifiedLLMClient.get_model_info, hne, hlu, hmi]
  · intro pre pid pinfo post mi heq hpre hmi
    have hscan : scanProviders model_id client.provider_info = some (pid, mi) := by
      rw [heq, scanProviders_append_skip model_id pre _ hpre]
      simp [scanProviders, hmi]
    simp [UnifiedLLMClient.get_model_info, hscan]
  · intro hall
    have hscan := scanProviders_eq_none model_id _ hall
    simp [UnifiedLLMClient.get_model_info, hscan]

/-- Witness for C3's amended statement: a hinted lookup of a declared
model succeeds within that provider. -/
theorem c3_lookup_rules_witness :
    exClient.get_model_info "gpt" (some "openai") = .ok ("openai", miFull) :=
  (c3_lookup_rules exClient "gpt").2.2.1 "openai" exProviderInfo miFull
    (by decide) (by decide) (by decide)

/-- C3 counterexample: looking up a declared model under an unknown
provider hint raises `ModelNotFound` whose `available_models` is the empty
list — not the full catalog of known model ids. -/
theorem c3_counterexample :
    exClient.get_model_info "gpt" (some "unknown") =
      .error (.modelNotFound "Provider 'unknown' not found" "unknown" "gpt" [])
    ∧ allModelIds exClient.provider_info = ["gpt", "o1"]
    ∧ ([] : List String) ≠ ["gpt", "o1"] := by
  decide

theorem heap_get_alloc (h : Heap) (d : Dict) :
    (h.alloc d).1.get (h.alloc d).2 = d := by
  simp [Heap.alloc, Heap.get]

theorem heap_get_set_self (h : Heap) (r : Nat) (d : Dict)
    (hr : r < h.dicts.length) :
    (h.set r d).get r = d := by
  simp [Heap.set, Heap.get, hr]

theorem ensureMetadataRef_lt (h : Heap) (m : Option Nat) :
    (ensureMetadataRef h m).2 < (ensureMetadataRef h m).1.dicts.length := by
  cases m with
  | none => simp [ensureMetadataRef, Heap.alloc]
  | some r =>
      by_cases hr : h.get r = []
      · simp [ensureMetadataRef, hr, Heap.alloc]
      · have hlt : r < h.dicts.length := by
          by_contra hge
          exact hr (by
            simp [Heap.get, List.getD_eq_getElem?_getD,
              List.getElem?_eq_none (Nat.le_of_not_lt hge)])
        simp [ensureMetadataRef, hr, hlt]

theorem lookupD_dictSet_self {α : Type} (d : List (String × α)) (k : String)
    (v : α) : lookupD (dictSet d k v) k = some v := by
  induction d with
  | nil => simp [dictSet, lookupD]
  | cons kv rest ih =>
      obtain ⟨k2, v2⟩ := kv
      by_cases hk : k2 = k <;> simp [dictSet, lookupD, hk, ih]

theorem attachRequestId_writes (h : Heap) (config : RequestConfig)
    (request_id : String) :
    (attachRequestId h config request_id).2 =
      { config with metadata := some (ensureMetadataRef h config.metadata).2 }
    ∧ lookupD ((attachRequestId h config request_id).1.get
          (ensureMetadataRef h config.metadata).2) "request_id"
        = some (.prim (.pstr request_id)) := by
  refine ⟨rfl, ?_⟩
  have hlt := ensureMetadataRef_lt h config.metadata
  simp only [attachRequestId]
  rw [heap_get_set_self _ _ _ hlt]
  exact lookupD_dictSet_self _ _ _

theorem validate_ok_model_id (client : UnifiedLLMClient)
    (config : RequestConfig) (pid mid : String) (mi : ModelInfo)
    (h : client.validate_request_config config = .ok (pid, mid, mi)) :
    mid = config.model := by
  unfold UnifiedLLMClient.validate_request_config at h
  cases hg : client.get_model_info config.model config.provider with
  | error e =>
      rw [hg] at h
      exact absurd h (by simp)
  | ok pr =>
      obtain ⟨pid2, mi2⟩ := pr
      simp only [hg] at h
      split_ifs at h with h1 h2 h3 h4
      simp_all

/-- C4: for an error raised by the adapter call inside `generate`, a
canonical framework error propagates unchanged, while any other exception
is wrapped in exactly one generic `UnifiedLLMError` tagged with the
resolved provider id and model id (the latter being the requested model),
whose message extends the original error's message text. -/
theorem c4_generate_error_wrapping (client : UnifiedLLMClient) (h : Heap)
    (config : RequestConfig) (request_id : String)
    (pid mid : String) (mi : ModelInfo)
    (hval : client.validate_request_config config = .ok (pid, mid, mi)) :
    (∀ e, (client.generate h config request_id (.error (.canonical e))).1 =
        .error e)
    ∧ (∀ msg,
        (client.generate h config request_id (.error (.otherExc msg))).1 =
          .error (.unifiedError
            ("Unexpected error during generation: " ++ msg)
            (some pid) (some mid)))
    ∧ mid = config.model := by
  refine ⟨?_, ?_, validate_ok_model_id client config pid mid mi hval⟩
  · intro e
    simp [UnifiedLLMClient.generate, hval]
  · intro msg
    simp [UnifiedLLMClient.generate, hval]

/-- Witness for C4 at the fixture client: a non-canonical adapter failure
"boom" surfaces as one `UnifiedLLMError` tagged openai/gpt. -/
theorem c4_generate_error_wrapping_witness :
    (exClient.generate exHeap { model := "gpt" } "req-1"
        (.error (.otherExc "boom"))).1 =
      .error (.unifiedError ("Unexpected error during generation: " ++ "boom")
        (some "openai") (some "gpt")) :=
  (c4_generate_error_wrapping exClient exHeap { model := "gpt" } "req-1"
    "openai" "gpt" miFull (by decide)).2.1 "boom"

/-- C7: `generate_stream` behaves identically whatever `stream` value the
caller passed (it forces the flag on a copy before resolution and
validation), and — when the forced options validate — returns the
adapter's event sequence un-collected, wrapped with the resolved provider
id, the model id, the fresh request id, and the creation timestamp. -/
theorem c7_generate_stream_forces_and_wraps (client : UnifiedLLMClient)
    (h : Heap) (config : RequestConfig) (request_id : String)
    (events : List StreamChunk) (now : Nat) (pid mid : String)
    (mi : ModelInfo)
    (hval : client.validate_request_config { config with stream := true } =
      .ok (pid, mid, mi)) :
    client.generate_stream h config request_id events now =
      client.generate_stream h { config with stream := true } request_id
        events now
    ∧ ∃ sr, (client.generate_stream h config request_id events now).1 = .ok sr
        ∧ sr.chunks = events ∧ sr.provider = pid ∧ sr.model = mid
        ∧ sr.request_id = some request_id ∧ sr.created_at = now := by
  constructor
  · rfl
  · obtain ⟨hcfg, hlook⟩ :=
      attachRequestId_writes h { config with stream := true } request_id
    refine ⟨adapterGenerateStream events pid mid
        (attachRequestId h { config with stream := true } request_id).2
        (attachRequestId h { config with stream := true } request_id).1 now,
      ?_, rfl, rfl, rfl, ?_, rfl⟩
    · simp [UnifiedLLMClient.generate_stream, hval]
    · simp [adapterGenerateStream, hcfg, hlook]

/-- Witness for C7: a caller-side non-streaming request is forced to
stream, and the wrapper carries provider, model, request id and timestamp. -/
theorem c7_generate_stream_forces_and_wraps_witness :
    (exClient.validate_request_config { model := "gpt", stream := true } =
      .ok ("openai", "gpt", miFull))
    ∧ (exClient.generate_stream exHeap { model := "gpt" } "req-9"
          [{ content := "x" }] 7 =
        exClient.generate_stream exHeap { model := "gpt", stream := true }
          "req-9" [{ content := "x" }] 7
      ∧ ∃ sr, (exClient.generate_stream exHeap { model := "gpt" } "req-9"
            [{ content := "x" }] 7).1 = .ok sr
          ∧ sr.chunks = [{ content := "x" }] ∧ sr.provider = "openai"
          ∧ sr.model = "gpt" ∧ sr.request_id = some "req-9"
          ∧ sr.created_at = 7) :=
  ⟨by decide,
   c7_generate_stream_forces_and_wraps exClient exHeap { model := "gpt" }
     "req-9" [{ content := "x" }] 7 "openai" "gpt" miFull (by decide)⟩

/-- C10: both `generate` and `generate_stream` write the fresh request id
through the shallow `model_copy`, mutating the caller's metadata dict
object in place whenever it is non-empty: after the calls, the dict the
caller's config references has gained a "request_id" key. -/
theorem c10_request_id_leaks_into_caller_metadata :
    Heap.get (exClient.generate exHeap exConfigMeta "req-1"
        (.ok exResponse)).2 0 =
      [("k", .prim (.pstr "v")), ("request_id", .prim (.pstr "req-1"))]
    ∧ Heap.get (exClient.generate_stream exHeap exConfigMeta "req-2" [] 5).2 0 =
      [("k", .prim (.pstr "v")), ("request_id", .prim (.pstr "req-2"))]
    ∧ exHeap.get 0 = [("k", .prim (.pstr "v"))] := by
  decide
